import Mathlib

/-!
Shallow embedding of the pdf-to-word conversion pipeline and the API-key
rotation store, translated from the TypeScript source (the pdf-to-word
server action and apiKeysStore.ts), together with theorems settling the
specification claims about them.
-/

namespace SmartSuman

/-- Position metadata on a structural node (zod: `position` object). -/
structure Position where
  x : Option Int := none
  y : Option Int := none
  page : Option Int := none
deriving DecidableEq

/-- Text alignment (zod enum). -/
inductive Alignment where
  | left
  | center
  | right
  | justify
deriving DecidableEq

/-- Discriminant of a structural node (zod enum `type`). -/
inductive NodeType where
  | heading
  | paragraph
  | list
  | table
  | image
  | section_break
  | page_break
deriving DecidableEq

/-- One styled run of extracted text (`ContentItemSchema`). -/
structure ContentItem where
  text : String
  bold : Option Bool := none
  italic : Option Bool := none
  color : Option String := none
  fontSize : Option Int := none
deriving DecidableEq

/-- One structural node of the extracted document (element of `structure`). -/
structure StructuralNode where
  type : NodeType
  level : Option Int := none
  items : Option (List String) := none
  rows : Option (List (List String)) := none
  imageDescription : Option String := none
  alignment : Option Alignment := none
  position : Option Position := none
deriving DecidableEq

/-- The validated model output: `{ content, structure }`. -/
structure ExtractionResult where
  content : List ContentItem
  «structure» : List StructuralNode
deriving DecidableEq

/-- Properties of a docx `TextRun` as constructed by the assembler. -/
structure TextRunProps where
  text : String
  bold : Option Bool := none
  italic : Option Bool := none
  color : Option String := none
  size : Option Int := none
deriving DecidableEq

/-- The named docx heading styles `HEADING_1` .. `HEADING_6`. -/
inductive HeadingStyle where
  | h1
  | h2
  | h3
  | h4
  | h5
  | h6
deriving DecidableEq

/-- A docx block element: a paragraph (possibly with a heading style) or a
table whose cells each hold a single run. -/
inductive Block where
  | para (heading : Option HeadingStyle) (runs : List TextRunProps)
  | table (rows : List (List TextRunProps))
deriving DecidableEq

/-- JS `s || d` on an optional string: an absent or empty string is falsy. -/
def orElseStr (s : Option String) (d : String) : String :=
  match s with
  | some t => if t = "" then d else t
  | none => d

/-- JS `struct.items?.join(' ') || ''`: space-join of the items, empty string
when absent (joining never yields a nonempty falsy value it would replace). -/
def joinItems (items : Option (List String)) : String :=
  match items with
  | some l => String.intercalate " " l
  | none => ""

/-- JS `struct.level || 1`: the level with numeric-falsy (0, absent)
defaulting to 1.  No clamping is performed. -/
def effLevel (level : Option Int) : Int :=
  match level with
  | some l => if l = 0 then 1 else l
  | none => 1

/-- JS `HeadingLevel["HEADING_" + lvl]`: defined exactly for 1..6,
`undefined` (here `none`) for every other value. -/
def headingStyleFor (l : Int) : Option HeadingStyle :=
  if l = 1 then some HeadingStyle.h1
  else if l = 2 then some HeadingStyle.h2
  else if l = 3 then some HeadingStyle.h3
  else if l = 4 then some HeadingStyle.h4
  else if l = 5 then some HeadingStyle.h5
  else if l = 6 then some HeadingStyle.h6
  else none

/-- The content-phase paragraph built from one `ContentItem`:
`color?.substring(1)` strips the leading character, and
`fontSize ? fontSize * 2 : 22` converts points to half-points with the
JS-falsy default. -/
def contentBlock (item : ContentItem) : Block :=
  Block.para none
    [{ text := item.text
     , bold := item.bold
     , italic := item.italic
     , color := item.color.map (fun c => c.drop 1)
     , size := some (match item.fontSize with
                     | some f => if f = 0 then 22 else f * 2
                     | none => 22) }]

/-- Structure-phase dispatch on one `StructuralNode`, following the source
switch: heading, list, table, image, page_break, and a default arm for
every other discriminant.  An empty-or-absent-rows table contributes `[]`
(flattened away), every other arm one block. -/
def blocksOfStruct (n : StructuralNode) : List Block :=
  match n.type with
  | NodeType.heading =>
      [Block.para (headingStyleFor (effLevel n.level))
        [{ text := joinItems n.items
         , bold := some true
         , size := some (24 - effLevel n.level * 2) }]]
  | NodeType.list =>
      [Block.para none
        ((n.items.getD []).map (fun item =>
          ({ text := "â€¢ " ++ item ++ "\n" } : TextRunProps)))]
  | NodeType.table =>
      match n.rows with
      | some rows =>
          if rows.length > 0 then
            [Block.table (rows.map (fun row =>
              row.map (fun cell => ({ text := cell } : TextRunProps))))]
          else []
      | none => []
  | NodeType.image =>
      [Block.para none
        [{ text := "[Image: " ++ orElseStr n.imageDescription "Visual content" ++ "]"
         , color := some "0000FF"
         , italic := some true }]]
  | NodeType.page_break =>
      [Block.para none [{ text := "\x0c" }]]
  | _ =>
      [Block.para none [{ text := joinItems n.items }]]

/-- The assembler: all structure-derived blocks (in structure order),
followed by one content paragraph per `ContentItem` (in content order) —
the source's `[...structuredContent, ...paragraphs]`. -/
def assemble (r : ExtractionResult) : List Block :=
  r.«structure».flatMap blocksOfStruct ++ r.content.map contentBlock

/-- Message thrown when the primary prompt resolves with a null output. -/
def primaryNullOutputMsg : String := "The AI failed to process the PDF content."

/-- Message thrown when the fallback prompt resolves with a null output. -/
def fallbackNullOutputMsg : String :=
  "The AI failed to process the PDF content (fallback)."

/-- The operator hint appended when both model attempts fail. -/
def flowFailureHint : String :=
  "Verify your API key is valid and enabled, and that outbound network access to generativelanguage.googleapis.com is allowed."

/-- The aggregated error message thrown by the flow when both model
attempts fail (template literal plus hint string, verbatim). -/
def flowFailureMsg (m1 m2 : String) : String :=
  "Gemini request failed: " ++ m1 ++ ". Fallback model also failed: "
    ++ m2 ++ ". " ++ flowFailureHint

/-- One prompt invocation as seen by the flow: the call either rejects
(`Except.error` with the error message), resolves with a null output
(turned into a thrown error with the given message by the `if (!output)`
check), or resolves with a schema-valid payload. -/
def promptAttempt (call : Except String (Option ExtractionResult))
    (nullMsg : String) : Except String ExtractionResult :=
  match call with
  | Except.ok (some out) => Except.ok out
  | Except.ok none => Except.error nullMsg
  | Except.error m => Except.error m

/-- The extraction orchestrator `pdfToWordFlow`: try the primary prompt;
on any failure try the fallback prompt; if that fails too, throw the
aggregated message built from both failures. -/
def pdfToWordFlow (primary secondary : Except String (Option ExtractionResult)) :
    Except String ExtractionResult :=
  match promptAttempt primary primaryNullOutputMsg with
  | Except.ok out => Except.ok out
  | Except.error m1 =>
      match promptAttempt secondary fallbackNullOutputMsg with
      | Except.ok out => Except.ok out
      | Except.error m2 => Except.error (flowFailureMsg m1 m2)

/-- The pipeline input (`PdfToWordInput` from lib/types, as used by the
action: a data URI and the selected conversion mode string). -/
structure PdfToWordInput where
  pdfUri : String
  conversionMode : String
deriving DecidableEq

/-- The pipeline output (`PdfToWordOutput`): a docx data URI. -/
structure PdfToWordOutput where
  docxUri : String
deriving DecidableEq

/-- External collaborators the top-level action can invoke. -/
inductive CallEvent where
  | aiFlow
  | noOcr
deriving DecidableEq

/-- Data-URI prefix prepended to the base64 docx payload. -/
def docxUriPrefix : String :=
  "data:application/vnd.openxmlformats-officedocument.wordprocessingml.document;base64,"

/-- Default message used when the caught AI error has a falsy message. -/
def noAiFallbackUnavailableMsg : String :=
  "AI conversion failed and fallback converter was not available."

/-- The top-level action `pdfToWord`.  External collaborators are passed as
oracles: the two prompt outcomes, the `pdfToWordNoOcr` outcome, and the
docx packer (`Packer.toBuffer` + base64).  Besides the result, it returns
the trace of collaborators invoked, in invocation order. -/
def pdfToWord (input : PdfToWordInput)
    (primary secondary : Except String (Option ExtractionResult))
    (noOcrConv : Except String PdfToWordOutput)
    (packToBase64 : List Block → String) :
    Except String PdfToWordOutput × List CallEvent :=
  if input.conversionMode = "no_ocr" then
    (noOcrConv, [CallEvent.noOcr])
  else
    match pdfToWordFlow primary secondary with
    | Except.ok result =>
        (Except.ok { docxUri := docxUriPrefix ++ packToBase64 (assemble result) },
         [CallEvent.aiFlow])
    | Except.error e =>
        match noOcrConv with
        | Except.ok fallback => (Except.ok fallback, [CallEvent.aiFlow, CallEvent.noOcr])
        | Except.error _ =>
            (Except.error (if e = "" then noAiFallbackUnavailableMsg else e),
             [CallEvent.aiFlow, CallEvent.noOcr])

/-- One stored API key record (`ApiKeyRecord` in apiKeysStore.ts). -/
structure ApiKeyRecord where
  id : String
  provider : String := "gemini"
  key : String
  label : Option String := none
  createdAt : String := ""
  enabled : Bool
  flagged : Option Bool := none
deriving DecidableEq

/-- The configured bucketing strategy (`'hourly' | 'minute'`). -/
inductive RotStrategy where
  | hourly
  | minute
deriving DecidableEq

/-- Per-provider rotation configuration. -/
structure RotConfig where
  enabled : Bool
  strategy : RotStrategy
deriving DecidableEq

/-- The store shape, specialized to the single provider `gemini`. -/
structure ApiKeysStoreShape where
  geminiKeys : List ApiKeyRecord
  geminiRot : RotConfig
deriving DecidableEq

/-- The eligibility filter `k.enabled && !k.flagged` (an absent `flagged`
is falsy). -/
def eligibleKey (k : ApiKeyRecord) : Bool :=
  k.enabled && !(k.flagged.getD false)

/-- Bucket width in milliseconds for each strategy. -/
def rotIntervalMs (s : RotStrategy) : Nat :=
  match s with
  | RotStrategy.minute => 60000
  | RotStrategy.hourly => 3600000

/-- `getRotatingGeminiKey`: filter to eligible keys; none when empty; the
first eligible key when rotation is disabled; otherwise the key at
`floor(timeMs / interval) % N`. -/
def getRotatingGeminiKey (store : ApiKeysStoreShape) (timeMs : Nat) : Option String :=
  let keys := store.geminiKeys.filter eligibleKey
  if keys.length = 0 then none
  else if !store.geminiRot.enabled then
    keys.head?.map (fun k => k.key)
  else
    let baseIndex := timeMs / rotIntervalMs store.geminiRot.strategy
    (keys[baseIndex % keys.length]?).map (fun k => k.key)

/-- Changing the `position` field of a structural node does not change the
blocks it contributes: no dispatch arm reads `position`. -/
theorem blocksOfStruct_position_irrelevant (n : StructuralNode) (p : Option Position) :
    blocksOfStruct { n with position := p } = blocksOfStruct n := by
  cases n with
  | mk t lv it rw im al po => cases t <;> rfl

/-- C1: for every schema-valid `ExtractionResult` the (total) assembler
returns exactly the structure-derived blocks in structure order followed
by one content block per content item in content order; the output length
is the number of structure-derived blocks plus the number of content
items; and rewriting the `position` metadata of every structural node in
any way leaves the output unchanged (position never reorders blocks). -/
theorem assemble_ordering_total (r : ExtractionResult)
    (f : StructuralNode → Option Position) :
    assemble r = r.«structure».flatMap blocksOfStruct ++ r.content.map contentBlock
    ∧ (assemble r).length
        = (r.«structure».flatMap blocksOfStruct).length + r.content.length
    ∧ assemble { r with «structure» :=
          r.«structure».map (fun n => { n with position := f n }) }
        = assemble r := by
  refine ⟨rfl, by simp [assemble], ?_⟩
  have hmap : ∀ l : List StructuralNode,
      (l.map (fun n => { n with position := f n })).flatMap blocksOfStruct
        = l.flatMap blocksOfStruct := by
    intro l
    induction l with
    | nil => rfl
    | cons a t ih =>
        simp only [List.map_cons, List.flatMap_cons, ih,
          blocksOfStruct_position_irrelevant]
  simp only [assemble, hmap]

/-- C2 counterexample: a heading with level 7 is NOT normalized to level 1.
The block actually produced carries no named heading style (the lookup of
`HEADING_7` is undefined) and run size `24 - 7 * 2 = 10`, and differs from
the block produced for level 1 (style `HEADING_1`, size 22), which the
claimed clamping would require them to be equal to. -/
theorem heading_level7_not_clamped :
    blocksOfStruct { type := NodeType.heading, level := some 7 }
      = [Block.para none [{ text := "", bold := some true, size := some 10 }]]
    ∧ blocksOfStruct { type := NodeType.heading, level := some 7 }
      ≠ blocksOfStruct { type := NodeType.heading, level := some 1 } := by
  constructor
  · decide
  · decide

/-- C2 amended: the heading level used by assembly is the given level with
only JS-falsy defaulting, not clamping: absent and 0 normalize to 1, any
other value (including out-of-range values such as 7) is used as-is, and
it determines both the heading-style lookup and the run size
`24 - level * 2`.  In particular level 3 stays 3 and level 7 stays 7
(selecting no named heading style). -/
theorem heading_level_effective (n : StructuralNode) (h : n.type = NodeType.heading) :
    blocksOfStruct n
      = [Block.para (headingStyleFor (effLevel n.level))
          [{ text := joinItems n.items
           , bold := some true
           , size := some (24 - effLevel n.level * 2) }]]
    ∧ effLevel none = 1 ∧ effLevel (some 0) = 1 ∧ effLevel (some 3) = 3
    ∧ effLevel (some 7) = 7
    ∧ headingStyleFor (effLevel (some 3)) = some HeadingStyle.h3
    ∧ headingStyleFor (effLevel (some 7)) = none := by
  refine ⟨?_, by decide, by decide, by decide, by decide, by decide, by decide⟩
  cases n with
  | mk t lv it rw im al po =>
      change t = NodeType.heading at h
      subst h
      rfl

/-- C2 amended, witness at a concrete level-3 heading. -/
theorem heading_level_effective_witness :
    blocksOfStruct { type := NodeType.heading, level := some 3, items := some ["T"] }
      = [Block.para (headingStyleFor (effLevel (some 3)))
          [{ text := joinItems (some ["T"])
           , bold := some true
           , size := some (24 - effLevel (some 3) * 2) }]] :=
  (heading_level_effective
    { type := NodeType.heading, level := some 3, items := some ["T"] } rfl).1

/-- C5: a table node with non-empty `rows` yields exactly one table block
whose grid mirrors `rows` verbatim — the same number of rows and, row by
row (stated via `List.Forall₂`, which forces equal lengths), the same
number of cells, each cell a single plain text run; a table node with
empty or absent `rows` contributes no block at all. -/
theorem blocksOfStruct_table (n : StructuralNode) (h : n.type = NodeType.table) :
    (n.rows = none → blocksOfStruct n = [])
    ∧ (n.rows = some [] → blocksOfStruct n = [])
    ∧ ∀ rs, n.rows = some rs → rs ≠ [] →
        blocksOfStruct n
          = [Block.table (rs.map (fun row =>
              row.map (fun cell => ({ text := cell } : TextRunProps))))]
        ∧ (rs.map (fun row =>
              row.map (fun cell => ({ text := cell } : TextRunProps)))).length
            = rs.length
        ∧ List.Forall₂
            (fun (row : List String) (grow : List TextRunProps) =>
              grow.length = row.length ∧ grow = row.map (fun cell => { text := cell }))
            rs
            (rs.map (fun row =>
              row.map (fun cell => ({ text := cell } : TextRunProps)))) := by
  obtain ⟨t, lv, it, rw, im, al, po⟩ := n
  change t = NodeType.table at h
  subst h
  refine ⟨?_, ?_, ?_⟩
  · intro hrw
    change rw = none at hrw
    subst hrw
    rfl
  · intro hrw
    change rw = some [] at hrw
    subst hrw
    rfl
  · intro rs hrw hne
    change rw = some rs at hrw
    subst hrw
    refine ⟨?_, by simp, ?_⟩
    · show (if rs.length > 0 then _ else _) = _
      rw [if_pos (by simpa [List.length_pos] using hne)]
    · rw [List.forall₂_map_right_iff]
      rw [List.forall₂_same]
      intro row _
      exact ⟨by simp, rfl⟩

/-- C5, witness at the spec's example `[["a","b"],["c"]]`: one table block
with two rows of two and one cells. -/
theorem blocksOfStruct_table_witness :
    blocksOfStruct { type := NodeType.table, rows := some [["a","b"],["c"]] }
      = [Block.table ([["a","b"],["c"]].map (fun row =>
          row.map (fun cell => ({ text := cell } : TextRunProps))))] :=
  ((blocksOfStruct_table { type := NodeType.table, rows := some [["a","b"],["c"]] }
      rfl).2.2 [["a","b"],["c"]] rfl (by decide)).1

/-- C6: a structural node whose discriminant is not one of the explicitly
handled kinds (heading, list, table, image, page_break) — that is,
`section_break` or `paragraph` — always contributes exactly one plain-text
block containing the space-joined `items`, the empty string when `items`
is absent or empty; the node is neither dropped nor does assembly fail. -/
theorem blocksOfStruct_default (n : StructuralNode)
    (h : n.type = NodeType.section_break ∨ n.type = NodeType.paragraph) :
    blocksOfStruct n = [Block.para none [{ text := joinItems n.items }]]
    ∧ (n.items = none → joinItems n.items = "")
    ∧ (n.items = some [] → joinItems n.items = "") := by
  obtain ⟨t, lv, it, rw, im, al, po⟩ := n
  refine ⟨?_, ?_, ?_⟩
  · rcases h with h | h
    all_goals
      change t = _ at h
      subst h
      rfl
  · intro hit
    change it = none at hit
    subst hit
    rfl
  · intro hit
    change it = some [] at hit
    subst hit
    rfl

/-- C6, witness at a concrete `section_break` node with no items. -/
theorem blocksOfStruct_default_witness :
    blocksOfStruct { type := NodeType.section_break }
      = [Block.para none [{ text := joinItems none }]] :=
  (blocksOfStruct_default { type := NodeType.section_break } (Or.inl rfl)).1

/-- C9 counterexample: the content-item color is NOT carried through
unchanged — `color?.substring(1)` strips the leading character, so an item
with color `"#FF0000"` produces a run whose color is `"FF0000"`. -/
theorem contentBlock_color_changed :
    contentBlock { text := "x", color := some "#FF0000" }
      = Block.para none [{ text := "x", color := some "FF0000", size := some 22 }]
    ∧ (some "FF0000" : Option String) ≠ some "#FF0000" := by
  constructor
  · decide
  · decide

/-- C9 amended: the content-phase block for a `ContentItem` is a single
run carrying the item's text, bold and italic unchanged; a present
positive `fontSize` of `f` points becomes `f * 2` half-points and an
absent `fontSize` becomes the fixed default 22 half-points (11pt); the
color is carried with its first character (the leading `#`) removed. -/
theorem contentBlock_spec (item : ContentItem) :
    ∃ run : TextRunProps,
      contentBlock item = Block.para none [run]
      ∧ run.text = item.text
      ∧ run.bold = item.bold
      ∧ run.italic = item.italic
      ∧ run.color = item.color.map (fun c => c.drop 1)
      ∧ (∀ f : Int, item.fontSize = some f → 0 < f → run.size = some (f * 2))
      ∧ (item.fontSize = none → run.size = some 22) := by
  obtain ⟨tx, bd, itl, cl, fs⟩ := item
  refine ⟨_, rfl, rfl, rfl, rfl, rfl, ?_, ?_⟩
  · intro f hf hpos
    change fs = some f at hf
    subst hf
    simp only [contentBlock]
    rw [if_neg (by omega)]
  · intro hf
    change fs = none at hf
    subst hf
    rfl

/-- C9 amended, witness: a 12pt item yields a 24-half-point run. -/
theorem contentBlock_spec_witness :
    ∃ run : TextRunProps,
      contentBlock { text := "t", fontSize := some 12 } = Block.para none [run]
      ∧ run.size = some 24 := by
  obtain ⟨run, h1, _, _, _, _, h6, _⟩ :=
    contentBlock_spec { text := "t", fontSize := some 12 }
  exact ⟨run, h1, by rw [h6 12 rfl (by decide)]; decide⟩

/-- C3: the orchestrator returns the primary attempt's payload when it
succeeds; on any primary failure it runs the secondary attempt and, when
that succeeds with a schema-valid payload, returns its result; only when
both attempts fail does it fail, and then its message is the
concatenation holding both underlying failure descriptions followed by
the credentials-and-network hint. -/
theorem pdfToWordFlow_fallback (primary secondary : Except String (Option ExtractionResult)) :
    (∀ out, promptAttempt primary primaryNullOutputMsg = Except.ok out →
        pdfToWordFlow primary secondary = Except.ok out)
    ∧ (∀ m1, promptAttempt primary primaryNullOutputMsg = Except.error m1 →
        (∀ out, promptAttempt secondary fallbackNullOutputMsg = Except.ok out →
            pdfToWordFlow primary secondary = Except.ok out)
        ∧ (∀ m2, promptAttempt secondary fallbackNullOutputMsg = Except.error m2 →
            pdfToWordFlow primary secondary = Except.error (flowFailureMsg m1 m2)
            ∧ ∃ pre mid1 mid2 : String,
                flowFailureMsg m1 m2 = pre ++ (m1 ++ (mid1 ++ (m2 ++ (mid2 ++ flowFailureHint)))))) := by
  constructor
  · intro out h1
    simp [pdfToWordFlow, h1]
  · intro m1 h1
    constructor
    · intro out h2
      simp [pdfToWordFlow, h1, h2]
    · intro m2 h2
      refine ⟨by simp [pdfToWordFlow, h1, h2], ?_⟩
      refine ⟨"Gemini request failed: ", ". Fallback model also failed: ", ". ", ?_⟩
      simp [flowFailureMsg, String.append_assoc]

/-- C3, witness: primary rejects with "boom", secondary succeeds with the
empty payload, and the flow returns the secondary's payload. -/
theorem pdfToWordFlow_fallback_witness :
    pdfToWordFlow (Except.error "boom") (Except.ok (some ⟨[], []⟩))
      = Except.ok ⟨[], []⟩ :=
  ((pdfToWordFlow_fallback (Except.error "boom")
      (Except.ok (some ⟨[], []⟩))).2 "boom" rfl).1 ⟨[], []⟩ rfl

/-- Any error thrown by the orchestrator is the aggregated message, which
starts with a nonempty literal and hence is never the empty string. -/
theorem pdfToWordFlow_error_ne_empty (primary secondary : Except String (Option ExtractionResult))
    (e : String) (h : pdfToWordFlow primary secondary = Except.error e) :
    e ≠ "" := by
  have hmsg : ∃ m1 m2, e = flowFailureMsg m1 m2 := by
    unfold pdfToWordFlow at h
    rcases h1 : promptAttempt primary primaryNullOutputMsg with m1 | out
    · rw [h1] at h
      rcases h2 : promptAttempt secondary fallbackNullOutputMsg with m2 | out
      · rw [h2] at h
        exact ⟨m1, m2, by injection h with h; exact h.symm⟩
      · rw [h2] at h
        cases h
    · rw [h1] at h
      cases h
  obtain ⟨m1, m2, rfl⟩ := hmsg
  intro hcontra
  have hlen : (flowFailureMsg m1 m2).length = 0 := by rw [hcontra]; rfl
  rw [flowFailureMsg] at hlen
  simp only [String.length_append] at hlen
  have h23 : ("Gemini request failed: ").length = 23 := rfl
  omega

/-- C4: in the top-level action, when the AI flow fails the no-OCR
fallback converter is attempted; when that fallback also fails, the error
surfaced to the caller is exactly the orchestrator's (nonempty) failure
message, and the outcome is identical for every possible fallback error
message — the fallback's own error is suppressed. -/
theorem pdfToWord_double_failure (input : PdfToWordInput)
    (primary secondary : Except String (Option ExtractionResult))
    (packToBase64 : List Block → String) (e m2 : String)
    (hmode : input.conversionMode ≠ "no_ocr")
    (hflow : pdfToWordFlow primary secondary = Except.error e) :
    pdfToWord input primary secondary (Except.error m2) packToBase64
      = (Except.error e, [CallEvent.aiFlow, CallEvent.noOcr])
    ∧ ∀ m2a : String,
        pdfToWord input primary secondary (Except.error m2a) packToBase64
          = pdfToWord input primary secondary (Except.error m2) packToBase64 := by
  have hne : e ≠ "" := pdfToWordFlow_error_ne_empty primary secondary e hflow
  constructor
  · simp [pdfToWord, hmode, hflow, hne]
  · intro m2a
    simp [pdfToWord, hmode, hflow]

/-- C4, witness: mode "ocr", both prompts reject, fallback rejects with
"fb"; the surfaced error is the orchestrator's aggregated message. -/
theorem pdfToWord_double_failure_witness :
    pdfToWord { pdfUri := "u", conversionMode := "ocr" }
      (Except.error "a") (Except.error "b") (Except.error "fb") (fun _ => "")
      = (Except.error (flowFailureMsg "a" "b"), [CallEvent.aiFlow, CallEvent.noOcr]) :=
  (pdfToWord_double_failure { pdfUri := "u", conversionMode := "ocr" }
    (Except.error "a") (Except.error "b") (fun _ => "")
    (flowFailureMsg "a" "b") "fb" (by decide) rfl).1

/-- C7: an input whose `conversionMode` is `"no_ocr"` routes directly to
the no-OCR fallback converter, whose outcome (success or failure) is
returned verbatim, and the AI extraction flow is never invoked: the only
collaborator in the invocation trace is the fallback converter. -/
theorem pdfToWord_no_ocr (input : PdfToWordInput)
    (primary secondary : Except String (Option ExtractionResult))
    (noOcrConv : Except String PdfToWordOutput)
    (packToBase64 : List Block → String)
    (h : input.conversionMode = "no_ocr") :
    pdfToWord input primary secondary noOcrConv packToBase64
      = (noOcrConv, [CallEvent.noOcr])
    ∧ CallEvent.aiFlow ∉ (pdfToWord input primary secondary noOcrConv packToBase64).2 := by
  refine ⟨by simp [pdfToWord, h], ?_⟩
  simp [pdfToWord, h]

/-- C7, witness at a concrete no-OCR input. -/
theorem pdfToWord_no_ocr_witness :
    pdfToWord { pdfUri := "u", conversionMode := "no_ocr" }
      (Except.error "a") (Except.error "b")
      (Except.ok { docxUri := "d" }) (fun _ => "")
      = (Except.ok { docxUri := "d" }, [CallEvent.noOcr]) :=
  (pdfToWord_no_ocr { pdfUri := "u", conversionMode := "no_ocr" }
    (Except.error "a") (Except.error "b")
    (Except.ok { docxUri := "d" }) (fun _ => "") rfl).1

/-- C8: credential selection is deterministic and time-bucketed.  With no
eligible (enabled, non-flagged) credential the selection is `none`; with
rotation enabled and a non-empty eligible set of size N, the selected
credential is exactly the eligible-list entry at index
`floor(timeMs / interval) % N` (interval one hour or one minute per the
configured strategy), an index always in range; and under the hourly
strategy any two query times in the same clock hour select the identical
credential. -/
theorem getRotatingGeminiKey_spec (store : ApiKeysStoreShape) (t t1 t2 : Nat) :
    (store.geminiKeys.filter eligibleKey = [] → getRotatingGeminiKey store t = none)
    ∧ (store.geminiKeys.filter eligibleKey ≠ [] →
        store.geminiRot.enabled = true →
        ∃ k : ApiKeyRecord,
          (store.geminiKeys.filter eligibleKey)[(t / rotIntervalMs store.geminiRot.strategy)
              % (store.geminiKeys.filter eligibleKey).length]? = some k
          ∧ getRotatingGeminiKey store t = some k.key)
    ∧ (store.geminiRot.enabled = true →
        store.geminiRot.strategy = RotStrategy.hourly →
        t1 / 3600000 = t2 / 3600000 →
        getRotatingGeminiKey store t1 = getRotatingGeminiKey store t2) := by
  refine ⟨?_, ?_, ?_⟩
  · intro hkeys
    simp [getRotatingGeminiKey, hkeys]
  · intro hkeys hrot
    have hpos : 0 < (store.geminiKeys.filter eligibleKey).length :=
      List.length_pos.mpr hkeys
    have hidx : (t / rotIntervalMs store.geminiRot.strategy)
        % (store.geminiKeys.filter eligibleKey).length
        < (store.geminiKeys.filter eligibleKey).length :=
      Nat.mod_lt _ hpos
    refine ⟨(store.geminiKeys.filter eligibleKey).get ⟨_, hidx⟩, ?_, ?_⟩
    · exact List.getElem?_eq_getElem hidx
    · simp only [getRotatingGeminiKey]
      rw [if_neg (by omega), hrot]
      simp [List.getElem?_eq_getElem hidx]
  · intro hrot hstrat hsame
    simp only [getRotatingGeminiKey, hrot, hstrat]
    rw [show t1 / rotIntervalMs RotStrategy.hourly = t2 / rotIntervalMs RotStrategy.hourly
      from hsame]

/-- C8, witness: a two-key store under the hourly strategy queried at the
start and the middle of hour 0 selects the same (first) credential both
times, and selection on an empty store is `none`. -/
theorem getRotatingGeminiKey_spec_witness :
    getRotatingGeminiKey
      { geminiKeys := [⟨"i1", "gemini", "KA", none, "", true, none⟩,
                       ⟨"i2", "gemini", "KB", none, "", true, none⟩]
      , geminiRot := { enabled := true, strategy := RotStrategy.hourly } } 0
      = getRotatingGeminiKey
      { geminiKeys := [⟨"i1", "gemini", "KA", none, "", true, none⟩,
                       ⟨"i2", "gemini", "KB", none, "", true, none⟩]
      , geminiRot := { enabled := true, strategy := RotStrategy.hourly } } 1800000
    ∧ getRotatingGeminiKey
      { geminiKeys := []
      , geminiRot := { enabled := true, strategy := RotStrategy.hourly } } 0
      = none :=
  ⟨(getRotatingGeminiKey_spec
      { geminiKeys := [⟨"i1", "gemini", "KA", none, "", true, none⟩,
                       ⟨"i2", "gemini", "KB", none, "", true, none⟩]
      , geminiRot := { enabled := true, strategy := RotStrategy.hourly } }
      0 0 1800000).2.2 rfl rfl (by decide),
   (getRotatingGeminiKey_spec
      { geminiKeys := []
      , geminiRot := { enabled := true, strategy := RotStrategy.hourly } }
      0 0 0).1 rfl⟩

/-- C10: with rotation disabled in the store configuration, selection
ignores the query time entirely — any two times yield the same outcome —
and deterministically returns the first eligible (enabled, non-flagged)
credential in stored order, or `none` when no credential is eligible. -/
theorem getRotatingGeminiKey_disabled (store : ApiKeysStoreShape) (t t' : Nat)
    (h : store.geminiRot.enabled = false) :
    getRotatingGeminiKey store t = getRotatingGeminiKey store t'
    ∧ (store.geminiKeys.filter eligibleKey = [] → getRotatingGeminiKey store t = none)
    ∧ ∀ (k : ApiKeyRecord) (ks : List ApiKeyRecord),
        store.geminiKeys.filter eligibleKey = k :: ks →
        getRotatingGeminiKey store t = some k.key := by
  refine ⟨by simp [getRotatingGeminiKey, h], ?_, ?_⟩
  · intro hkeys
    simp [getRotatingGeminiKey, hkeys]
  · intro k ks hkeys
    simp [getRotatingGeminiKey, hkeys, h]

/-- C10, witness: rotation disabled, first key flagged; selection at two
distant times returns the second key (the first eligible one) both times. -/
theorem getRotatingGeminiKey_disabled_witness :
    getRotatingGeminiKey
      { geminiKeys := [⟨"i1", "gemini", "KA", none, "", true, some true⟩,
                       ⟨"i2", "gemini", "KB", none, "", true, none⟩]
      , geminiRot := { enabled := false, strategy := RotStrategy.hourly } } 5
      = some "KB" :=
  (getRotatingGeminiKey_disabled
    { geminiKeys := [⟨"i1", "gemini", "KA", none, "", true, some true⟩,
                     ⟨"i2", "gemini", "KB", none, "", true, none⟩]
    , geminiRot := { enabled := false, strategy := RotStrategy.hourly } }
    5 99999999 rfl).2.2
    ⟨"i2", "gemini", "KB", none, "", true, none⟩ [] (by decide)

end SmartSuman
